import Mathlib

/-
Verification development for the ntnx-v4api-cats operator scripts.

The repository holds three Python scripts:
  - update_categories_for_vm.py : the bulk category-update workflow
  - experimental/deploy_windows_vm.py : the VM provisioning workflow
  - scratch/deploy_windows_vm.py : an earlier copy with the same loader
    and selection logic.

This file shallowly embeds the data model and the control flow of those
scripts.  HTTP traffic is modelled by an environment value that supplies
the responses the remote API would give; the embedding records which
calls each code path issues and what it writes back to the spreadsheet
row.  Python string primitives (strip, upper, lower, split) are embedded
as structural functions on the character list of a string.
-/

-- ### Python string primitives

/-- Right trim of a character list: drop trailing whitespace.
Mirrors the right half of Python str.strip(). -/
def trimRightL (l : List Char) : List Char :=
  (l.reverse.dropWhile Char.isWhitespace).reverse

/-- Python str.strip(): drop leading then trailing whitespace. -/
def trimL (l : List Char) : List Char :=
  trimRightL (l.dropWhile Char.isWhitespace)

/-- Python s.strip() on a String. -/
def pyStrip (s : String) : String := ⟨trimL s.data⟩

/-- Python s.upper() (ASCII, which covers every string the scripts compare). -/
def pyUpper (s : String) : String := ⟨s.data.map Char.toUpper⟩

/-- Python s.lower() (ASCII). -/
def pyLower (s : String) : String := ⟨s.data.map Char.toLower⟩

/-- Python s.split(',') on the character list: split at every comma,
keeping empty segments, so that [] yields one empty segment. -/
def splitCommaL : List Char → List String
  | [] => [""]
  | c :: rest =>
    match splitCommaL rest with
    | [] => [""]
    | s :: ss =>
      if c = ',' then "" :: s :: ss
      else String.mk (c :: s.data) :: ss

/-- Python s.split(',') on a String. -/
def pySplitComma (s : String) : List String := splitCommaL s.data

/-- Python line.split('=', 1): text before the first '=', text after it. -/
def splitEq1 (s : String) : String × String :=
  (⟨s.data.takeWhile (fun c => c != '=')⟩,
   ⟨(s.data.dropWhile (fun c => c != '=')).tail⟩)

/-- Python line.startswith('#'). -/
def startsWithHash (s : String) : Bool :=
  match s.data with
  | [] => false
  | c :: _ => c == '#'

-- ### Configuration loaders

/-- One line of update_categories_for_vm.read_vars_file (lines 52-58):
the line is stripped and, when it contains '=', split at the first '='
into key and value which are stored in the dict.  Lines without '=' are
ignored.  The dict is modelled as the list of stored pairs in insertion
order; lookups take the last binding (dict overwrite semantics). -/
def updStep (acc : List (String × String)) (line : String) : List (String × String) :=
  if (pyStrip line).data.contains '=' then acc ++ [splitEq1 (pyStrip line)] else acc

/-- update_categories_for_vm.read_vars_file on the list of file lines. -/
def readVarsUpd (lines : List String) : List (String × String) :=
  lines.foldl updStep []

/-- Python dict.get on the stored-pair model: last binding for the key wins. -/
def dictGet (d : List (String × String)) (k : String) : Option String :=
  (d.reverse.find? (fun kv => kv.1 == k)).map (fun kv => kv.2)

/-- One line of deploy_windows_vm.read_vars_file (both copies, lines 84-98
of the scratch script): kept only when the stripped line is nonempty, does
not start with '#', and contains '='; key and value are stripped again. -/
def deployStep (acc : List (String × String)) (line : String) : List (String × String) :=
  if pyStrip line ≠ "" ∧ startsWithHash (pyStrip line) = false ∧
      (pyStrip line).data.contains '=' = true then
    acc ++ [(pyStrip (splitEq1 (pyStrip line)).1, pyStrip (splitEq1 (pyStrip line)).2)]
  else acc

/-- The dict built by deploy_windows_vm.read_vars_file before the
required-key check. -/
def parseVarsDeploy (lines : List String) : List (String × String) :=
  lines.foldl deployStep []

/-- Python `key in config` on the stored-pair model. -/
def hasKey (d : List (String × String)) (k : String) : Bool :=
  (d.find? (fun kv => kv.1 == k)).isSome

/-- deploy_windows_vm.read_vars_file: none models sys.exit(1), reached when
the file is absent or a required key (baseUrl, username, password) is
missing from the parsed dict. -/
def readVarsDeploy (file : Option (List String)) : Option (List (String × String)) :=
  match file with
  | none => none
  | some lines =>
    if hasKey (parseVarsDeploy lines) "baseUrl" = true ∧
        hasKey (parseVarsDeploy lines) "username" = true ∧
        hasKey (parseVarsDeploy lines) "password" = true then
      some (parseVarsDeploy lines)
    else none

-- ### Category payload (update_categories_for_vm.py)

/-- One {"extId": ...} element of the categories payload. -/
structure CatEntry where
  extId : String
deriving DecidableEq

/-- The body {"categories": [...]} posted to $actions/associate-categories. -/
structure CategoriesPayload where
  categories : List CatEntry
deriving DecidableEq

/-- update_categories_for_vm.build_categories_payload (lines 95-105):
strip each entry and keep the nonempty ones, in order, no deduplication. -/
def build_categories_payload (category_uuids : List String) : CategoriesPayload :=
  ⟨category_uuids.filterMap (fun u => if pyStrip u = "" then none else some ⟨pyStrip u⟩)⟩

/-- The comprehension on line 233 of update_categories_for_vm.main:
[uuid.strip() for uuid in category_uuids_str.split(',') if uuid.strip()]. -/
def parseCategoryUuids (s : String) : List String :=
  (pySplitComma s).filterMap (fun u => if pyStrip u = "" then none else some (pyStrip u))

-- ### Update orchestrator (update_categories_for_vm.main, lines 215-287)

/-- One spreadsheet row of the ToUpdate sheet, as the four cell values the
script reads (already stringified by str(row.get(...))). -/
structure Row where
  matchCell : String
  vmNameCell : String
  vmExtIdCell : String
  categoryCell : String
deriving DecidableEq

/-- An HTTP call issued by the update script. -/
inductive UCall
  | get (url : String)
  | post (url : String) (payload : CategoriesPayload)
deriving DecidableEq

/-- The POST response the remote API gives: its status code and the value
of headers.get('ETag', ''). -/
structure PostResponse where
  statusCode : Nat
  etag : String
deriving DecidableEq

/-- The remote behaviour for one record.  getEtag none models a GET
transport failure (make_get_request returns (None, None)); some e models a
response whose ETag header is e (with e = "" when the header is absent,
the headers.get('ETag','') default).  postResp none models a POST
transport failure (make_post_request returns None). -/
structure Env where
  getEtag : Option String
  postResp : Option PostResponse
deriving DecidableEq

/-- What processing one row produced: the HTTP calls issued, the status
string written to the row by update_excel_status (none when nothing is
written; update_excel_status also writes the timestamp in the same call),
and the updated ETag the script extracts from a 202 response. -/
structure RowResult where
  calls : List UCall
  written : Option String
  capturedEtag : Option String
deriving DecidableEq

/-- The loop body of update_categories_for_vm.main (lines 215-287) for a
single row, with the remote responses supplied by env. -/
def processRow (baseUrl : String) (row : Row) (env : Env) : RowResult :=
  if pyUpper (pyStrip row.matchCell) = "OK" then
    if pyStrip row.vmNameCell = "" ∨ pyStrip row.vmExtIdCell = "" ∨
        pyStrip row.categoryCell = "" then
      ⟨[], none, none⟩
    else
      if parseCategoryUuids (pyStrip row.categoryCell) = [] then
        ⟨[], none, none⟩
      else
        match env.getEtag with
        | none =>
          ⟨[UCall.get (baseUrl ++ "/" ++ ("vmm/v4.1/ahv/config/vms/" ++ pyStrip row.vmExtIdCell))],
           none, none⟩
        | some vmEtag =>
          if vmEtag = "" then
            ⟨[UCall.get (baseUrl ++ "/" ++ ("vmm/v4.1/ahv/config/vms/" ++ pyStrip row.vmExtIdCell))],
             none, none⟩
          else
            match env.postResp with
            | none =>
              ⟨[UCall.get (baseUrl ++ "/" ++ ("vmm/v4.1/ahv/config/vms/" ++ pyStrip row.vmExtIdCell)),
                UCall.post (baseUrl ++ "/" ++ ("vmm/v4.1/ahv/config/vms/" ++ pyStrip row.vmExtIdCell ++ "/$actions/associate-categories"))
                  (build_categories_payload (parseCategoryUuids (pyStrip row.categoryCell)))],
               some "FAILED (N/A)", none⟩
            | some resp =>
              if resp.statusCode = 202 then
                ⟨[UCall.get (baseUrl ++ "/" ++ ("vmm/v4.1/ahv/config/vms/" ++ pyStrip row.vmExtIdCell)),
                  UCall.post (baseUrl ++ "/" ++ ("vmm/v4.1/ahv/config/vms/" ++ pyStrip row.vmExtIdCell ++ "/$actions/associate-categories"))
                    (build_categories_payload (parseCategoryUuids (pyStrip row.categoryCell)))],
                 some "ACCEPTED", some resp.etag⟩
              else
                ⟨[UCall.get (baseUrl ++ "/" ++ ("vmm/v4.1/ahv/config/vms/" ++ pyStrip row.vmExtIdCell)),
                  UCall.post (baseUrl ++ "/" ++ ("vmm/v4.1/ahv/config/vms/" ++ pyStrip row.vmExtIdCell ++ "/$actions/associate-categories"))
                    (build_categories_payload (parseCategoryUuids (pyStrip row.categoryCell)))],
                 some ("FAILED (" ++ toString resp.statusCode ++ ")"), none⟩
  else ⟨[], none, none⟩

/-- The full row loop: each row is processed with its own environment;
the loop never aborts, so the results align with the rows. -/
def processTable (baseUrl : String) (rows : List Row) (envs : List Env) : List RowResult :=
  List.zipWith (processRow baseUrl) rows envs

/-- Outcome of starting update_categories_for_vm.main: fatal models the
sys.exit(1) taken when vars.txt is absent or a required value is falsy. -/
inductive UpdStart
  | fatal
  | proceed (baseUrl username password : String)
deriving DecidableEq

/-- Lines 183-190 of update_categories_for_vm.main: read vars.txt (none
models an absent file) and exit unless baseUrl, username and password all
have truthy values. -/
def mainStartUpd (file : Option (List String)) : UpdStart :=
  match file with
  | none => UpdStart.fatal
  | some lines =>
    if (dictGet (readVarsUpd lines) "baseUrl").getD "" = "" ∨
        (dictGet (readVarsUpd lines) "username").getD "" = "" ∨
        (dictGet (readVarsUpd lines) "password").getD "" = "" then
      UpdStart.fatal
    else
      UpdStart.proceed ((dictGet (readVarsUpd lines) "baseUrl").getD "")
        ((dictGet (readVarsUpd lines) "username").getD "")
        ((dictGet (readVarsUpd lines) "password").getD "")

/-- Terminal outcome of an update-script run. -/
inductive UpdOutcome
  | fatalConfig
  | fatalExcel
  | ran (results : List RowResult)
deriving DecidableEq

/-- A whole run of the update script: every HTTP call issued and the
outcome. -/
structure RunResult where
  calls : List UCall
  outcome : UpdOutcome
deriving DecidableEq

/-- update_categories_for_vm.main end to end: configuration check, Excel
load (none models an absent file), then the row loop.  No HTTP call is
issued before the row loop. -/
def runMainUpd (file : Option (List String)) (excel : Option (List Row))
    (envs : List Env) : RunResult :=
  match mainStartUpd file with
  | UpdStart.fatal => ⟨[], UpdOutcome.fatalConfig⟩
  | UpdStart.proceed b _ _ =>
    match excel with
    | none => ⟨[], UpdOutcome.fatalExcel⟩
    | some rows =>
      ⟨(processTable b rows envs).flatMap (fun r => r.calls),
       UpdOutcome.ran (processTable b rows envs)⟩

/-- True when the call list contains a POST. -/
def hasPost (calls : List UCall) : Bool :=
  calls.any (fun c => match c with | UCall.post _ _ => true | UCall.get _ => false)

-- ### Provisioning workflow (experimental/deploy_windows_vm.py)

/-- An inventory entry (image or subnet) as the selection helpers use it:
its name and its extId.  The source carries further informational fields
(type, size, vlan) that no selection or payload decision reads beyond
display, so they are not modelled. -/
structure InvEntry where
  name : String
  extId : String
deriving DecidableEq

/-- deploy_windows_vm.find_image_by_name (lines 184-226): scan the whole
inventory for an exact name match first; only if none exists, scan again
case-insensitively; otherwise none. -/
def find_image_by_name (data : List InvEntry) (imageName : String) : Option InvEntry :=
  match data.find? (fun i => i.name == imageName) with
  | some i => some i
  | none => data.find? (fun i => pyLower i.name == pyLower imageName)

/-- deploy_windows_vm.find_network_by_name (lines 228-270): same two-pass
search over the subnet inventory. -/
def find_network_by_name (data : List InvEntry) (subnetName : String) : Option InvEntry :=
  match data.find? (fun n => n.name == subnetName) with
  | some n => some n
  | none => data.find? (fun n => pyLower n.name == pyLower subnetName)

-- Global VM configuration constants (deploy_windows_vm.py lines 47-73).

def ALLOW_EXECUTION_WITHOUT_DOIT : Bool := false

def VM_DESCRIPTION : String := "Windows VM deployed via Python script using Nutanix v4 API"

def NUM_VCPUS : Nat := 4

def NUM_CORES_PER_VCPU : Nat := 1

def MEMORY_SIZE_MIB : Nat := 8192

def BOOT_DISK_SIZE_GIB : Nat := 80

def BOOT_DISK_BUS : String := "SCSI"

def MACHINE_TYPE : String := "PC"

def BIOS_TYPE : String := "LEGACY"

def SECURE_BOOT : Bool := false

def TPM_ENABLED : Bool := false

def BOOT_ORDER : List String := ["DISK", "CDROM", "NETWORK"]

/-- One bootConfig.bootDevices element. -/
structure BootDevice where
  bootDeviceType : String
  bootDeviceOrder : Nat
deriving DecidableEq

/-- The boot-device loop of create_vm_payload (lines 373-380): each
recognised entry of BOOT_ORDER is appended with the running length as its
order. -/
def buildBootDevices (order : List String) : List BootDevice :=
  order.foldl
    (fun acc bt =>
      if bt = "DISK" then acc ++ [⟨"DISK", acc.length⟩]
      else if bt = "CDROM" then acc ++ [⟨"CDROM", acc.length⟩]
      else if bt = "NETWORK" then acc ++ [⟨"NETWORK", acc.length⟩]
      else acc)
    []

/-- The VM-creation payload of create_vm_payload (lines 366-428), with one
field per JSON leaf the source sets.  The vm_uuid generated on line 370 is
unused by the payload and is not modelled. -/
structure VmPayload where
  name : String
  description : String
  numSockets : Nat
  numCoresPerSocket : Nat
  memorySizeBytes : Nat
  machineType : String
  biosType : String
  isSecureBootEnabled : Bool
  isTpmEnabled : Bool
  bootDevices : List BootDevice
  diskBusType : String
  diskIndex : Nat
  diskSizeBytes : Nat
  storageContainerExtId : String
  dataSourceExtId : String
  nicSubnetExtId : String
  nicType : String
  guestOsType : String
  apcEnabled : Bool
deriving DecidableEq

/-- deploy_windows_vm.create_vm_payload: pure in the VM name and the
selected image and network.  Fields are given in declaration order of
VmPayload. -/
def create_vm_payload (vmName : String) (image network : InvEntry) : VmPayload :=
  ⟨vmName, VM_DESCRIPTION, NUM_VCPUS, NUM_CORES_PER_VCPU,
   MEMORY_SIZE_MIB * 1024 * 1024, MACHINE_TYPE, BIOS_TYPE,
   SECURE_BOOT, TPM_ENABLED, buildBootDevices BOOT_ORDER,
   BOOT_DISK_BUS, 0, BOOT_DISK_SIZE_GIB * 1024 * 1024 * 1024,
   image.extId, image.extId, network.extId, "NORMAL_NIC", "WINDOWS", false⟩

/-- An HTTP call issued by the deploy script. -/
inductive DCall
  | get (url : String)
  | post (url : String) (payload : VmPayload)
deriving DecidableEq

/-- A whole deploy-script run: calls issued, the creation payload the run
built (none when it never reached create_vm_payload), and the exit code. -/
structure DeployRun where
  calls : List DCall
  builtPayload : Option VmPayload
  exitCode : Nat
deriving DecidableEq

/-- The payloads sent by POST calls, in order. -/
def sentPayloads (calls : List DCall) : List VmPayload :=
  calls.filterMap (fun c => match c with | DCall.post _ p => some p | DCall.get _ => none)

/-- deploy_windows_vm.main for a run in which both selections succeed with
the given image and network (by flag or interactively; both selection
modes GET the same inventory URLs).  The safety gate (lines 509-524) runs
before the configuration is read; then the connection-test GET, the two
inventory GETs, and either the dry-run path (build and print the payload,
exit 0, no POST), the declined confirmation (exit 0), or the deployment
POST of the freshly built payload. -/
def runDeploy (file : Option (List String)) (doIt dryRun confirm : Bool)
    (vmName : String) (img net : InvEntry) : DeployRun :=
  if doIt = false ∧ ALLOW_EXECUTION_WITHOUT_DOIT = false then ⟨[], none, 1⟩
  else
    match readVarsDeploy file with
    | none => ⟨[], none, 1⟩
    | some cfg =>
      if dryRun then
        ⟨[DCall.get ((dictGet cfg "baseUrl").getD "" ++ "/vmm/v4.1/ahv/config/vms"),
          DCall.get ((dictGet cfg "baseUrl").getD "" ++ "/vmm/v4.1/content/images"),
          DCall.get ((dictGet cfg "baseUrl").getD "" ++ "/networking/v4.1/config/subnets")],
         some (create_vm_payload vmName img net), 0⟩
      else if confirm = false then
        ⟨[DCall.get ((dictGet cfg "baseUrl").getD "" ++ "/vmm/v4.1/ahv/config/vms"),
          DCall.get ((dictGet cfg "baseUrl").getD "" ++ "/vmm/v4.1/content/images"),
          DCall.get ((dictGet cfg "baseUrl").getD "" ++ "/networking/v4.1/config/subnets")],
         none, 0⟩
      else
        ⟨[DCall.get ((dictGet cfg "baseUrl").getD "" ++ "/vmm/v4.1/ahv/config/vms"),
          DCall.get ((dictGet cfg "baseUrl").getD "" ++ "/vmm/v4.1/content/images"),
          DCall.get ((dictGet cfg "baseUrl").getD "" ++ "/networking/v4.1/config/subnets"),
          DCall.post ((dictGet cfg "baseUrl").getD "" ++ "/vmm/v4.1/ahv/config/vms")
            (create_vm_payload vmName img net)],
         some (create_vm_payload vmName img net), 0⟩

-- ### Helper lemmas

theorem dropWhile_self_dropWhile {α : Type} (p : α → Bool) (l : List α) :
    (l.dropWhile p).dropWhile p = l.dropWhile p := by
  induction l with
  | nil => rfl
  | cons a t ih =>
    by_cases h : p a
    · simp [List.dropWhile_cons, h, ih]
    · simp [List.dropWhile_cons, h]

theorem exists_prepend_dropWhile {α : Type} (p : α → Bool) (l : List α) :
    ∃ t, l = t ++ l.dropWhile p := by
  induction l with
  | nil => exact ⟨[], rfl⟩
  | cons a t ih =>
    by_cases h : p a
    · obtain ⟨w, hw⟩ := ih
      refine ⟨a :: w, ?_⟩
      rw [List.dropWhile_cons, if_pos h, List.cons_append]
      exact congrArg (a :: ·) hw
    · refine ⟨[], ?_⟩
      rw [List.dropWhile_cons, if_neg h, List.nil_append]

theorem head?_dropWhile_false {α : Type} (p : α → Bool) (l : List α) (a : α)
    (h : (l.dropWhile p).head? = some a) : p a = false := by
  induction l with
  | nil => simp at h
  | cons b t ih =>
    by_cases hb : p b
    · rw [List.dropWhile_cons, if_pos hb] at h
      exact ih h
    · rw [List.dropWhile_cons, if_neg hb] at h
      simp at h
      subst h
      cases hpb : p b with
      | false => rfl
      | true => exact absurd hpb hb

theorem dropWhile_of_head_false {α : Type} (p : α → Bool) (l : List α) (a : α)
    (hh : l.head? = some a) (hp : p a = false) : l.dropWhile p = l := by
  cases l with
  | nil => rfl
  | cons b t =>
    simp at hh
    subst hh
    rw [List.dropWhile_cons, if_neg]
    simp [hp]

theorem exists_append_trimRightL (l : List Char) : ∃ t, l = trimRightL l ++ t := by
  obtain ⟨w, hw⟩ := exists_prepend_dropWhile Char.isWhitespace l.reverse
  refine ⟨w.reverse, ?_⟩
  have h2 := congrArg List.reverse hw
  simpa [trimRightL, List.reverse_append] using h2

theorem trimRightL_trimRightL (l : List Char) : trimRightL (trimRightL l) = trimRightL l := by
  simp [trimRightL, List.reverse_reverse, dropWhile_self_dropWhile]

theorem dropWhile_trimRightL_of_dropped (l : List Char)
    (h : l.dropWhile Char.isWhitespace = l) :
    (trimRightL l).dropWhile Char.isWhitespace = trimRightL l := by
  cases hh : (trimRightL l).head? with
  | none =>
    have hnil : trimRightL l = [] := by
      cases htl : trimRightL l with
      | nil => rfl
      | cons b bs => rw [htl] at hh; simp at hh
    rw [hnil]
    rfl
  | some a =>
    obtain ⟨t, ht⟩ := exists_append_trimRightL l
    have hla : l.head? = some a := by
      rw [ht]
      cases htl : trimRightL l with
      | nil => rw [htl] at hh; simp at hh
      | cons b bs =>
        rw [htl] at hh
        simpa using hh
    have hpa : Char.isWhitespace a = false := by
      apply head?_dropWhile_false Char.isWhitespace l
      rw [h]
      exact hla
    exact dropWhile_of_head_false _ _ a hh hpa

theorem trimL_trimL (l : List Char) : trimL (trimL l) = trimL l := by
  have h1 : (trimL l).dropWhile Char.isWhitespace = trimL l :=
    dropWhile_trimRightL_of_dropped (l.dropWhile Char.isWhitespace)
      (dropWhile_self_dropWhile _ l)
  calc trimL (trimL l)
      = trimRightL ((trimL l).dropWhile Char.isWhitespace) := rfl
    _ = trimRightL (trimL l) := by rw [h1]
    _ = trimRightL (trimRightL (l.dropWhile Char.isWhitespace)) := rfl
    _ = trimRightL (l.dropWhile Char.isWhitespace) := trimRightL_trimRightL _
    _ = trimL l := rfl

theorem pyStrip_pyStrip (s : String) : pyStrip (pyStrip s) = pyStrip s := by
  show (⟨trimL (trimL s.data)⟩ : String) = ⟨trimL s.data⟩
  rw [trimL_trimL]

theorem filterMap_strip_twice (xs : List String) :
    List.filterMap (fun u => if pyStrip u = "" then none else some (CatEntry.mk (pyStrip u)))
        (List.filterMap (fun u => if pyStrip u = "" then none else some (pyStrip u)) xs)
      = ((xs.map pyStrip).filter (fun t => t != "")).map CatEntry.mk := by
  induction xs with
  | nil => rfl
  | cons u xs ih =>
    by_cases h : pyStrip u = ""
    · simp [List.filterMap_cons, List.filter_cons, h, ih]
    · simp [List.filterMap_cons, List.filter_cons, h, pyStrip_pyStrip, ih]

theorem foldl_skip {σ α : Type} (f : σ → α → σ) (b : σ) (pre post : List α) (x : α)
    (h : ∀ s, f s x = s) :
    (pre ++ x :: post).foldl f b = (pre ++ post).foldl f b := by
  rw [List.foldl_append, List.foldl_append, List.foldl_cons, h]

theorem find_exact_unique (data : List InvEntry) (target : String) (e : InvEntry)
    (he : e ∈ data) (hn : e.name = target)
    (hu : ∀ x, x ∈ data → x.name = target → x = e) :
    data.find? (fun i => i.name == target) = some e := by
  have hs : (data.find? (fun i => i.name == target)).isSome := by
    rw [List.find?_isSome]
    exact ⟨e, he, by simp [hn]⟩
  obtain ⟨a, ha⟩ := Option.isSome_iff_exists.mp hs
  have pa := List.find?_some ha
  have ma : a ∈ data := List.mem_of_find?_eq_some ha
  rw [ha, hu a ma (by simpa using pa)]

-- ### Claim theorems

/-- C5: for every comma-separated category-identifier string, the payload
built for the write (build_categories_payload applied to the parsed list
of line 233) is exactly the categories object whose extId entries are the
whitespace-trimmed non-empty segments of the input string, in their
original order, with duplicates preserved. -/
theorem c5_payload_is_trimmed_segments (s : String) :
    (build_categories_payload (parseCategoryUuids s)).categories
      = (((pySplitComma s).map pyStrip).filter (fun t => t != "")).map CatEntry.mk := by
  show List.filterMap (fun u => if pyStrip u = "" then none else some (CatEntry.mk (pyStrip u)))
      (List.filterMap (fun u => if pyStrip u = "" then none else some (pyStrip u))
        (pySplitComma s))
    = (((pySplitComma s).map pyStrip).filter (fun t => t != "")).map CatEntry.mk
  exact filterMap_strip_twice (pySplitComma s)

/-- C7 (amended): every loader ignores blank lines; the deploy scripts'
loader also ignores comment lines starting with '#'; the update script's
loader ignores a line exactly when its stripped form contains no '=', so a
comment line is ignored there only when it contains no '='. -/
theorem c7_ignored_lines_add_no_entry (pre post : List String) (line : String) :
    (pyStrip line = "" → readVarsUpd (pre ++ line :: post) = readVarsUpd (pre ++ post)) ∧
    ((pyStrip line).data.contains '=' = false →
      readVarsUpd (pre ++ line :: post) = readVarsUpd (pre ++ post)) ∧
    (pyStrip line = "" ∨ startsWithHash (pyStrip line) = true →
      parseVarsDeploy (pre ++ line :: post) = parseVarsDeploy (pre ++ post)) := by
  refine ⟨?_, ?_, ?_⟩
  · intro h
    apply foldl_skip
    intro s
    simp [updStep, h]
  · intro h
    apply foldl_skip
    intro s
    have h2 : '=' ∉ (pyStrip line).data := by simpa using h
    simp [updStep, h2]
  · intro h
    apply foldl_skip
    intro s
    rcases h with h | h <;> simp [deployStep, h]

/-- C7 counterexample: the line "# a=b" is a comment starting with '#',
yet the update script's loader stores the entry ("# a", "b") for it, so
the claim that comment lines contribute no entry in every loader fails. -/
theorem c7_counterexample :
    startsWithHash (pyStrip "# a=b") = true ∧
    readVarsUpd ["# a=b"] ≠ readVarsUpd ([] : List String) := by
  refine ⟨by decide, by decide⟩

/-- C7 witness: a blank line is dropped by the update loader and a '#'
comment line is dropped by the deploy loader, at concrete inputs. -/
theorem c7_witness :
    readVarsUpd ["baseUrl=x", "   ", "username=u"] = readVarsUpd ["baseUrl=x", "username=u"] ∧
    parseVarsDeploy ["baseUrl=x", "# comment", "username=u"]
      = parseVarsDeploy ["baseUrl=x", "username=u"] := by
  refine ⟨?_, ?_⟩
  · exact (c7_ignored_lines_add_no_entry ["baseUrl=x"] ["username=u"] "   ").1 (by decide)
  · exact (c7_ignored_lines_add_no_entry ["baseUrl=x"] ["username=u"] "# comment").2.2
      (Or.inr (by decide))

/-- C6: with the configuration file absent, or any required key (baseUrl,
username, password) missing from it, the update script exits fatally
with no HTTP call issued, and the deploy script's loader exits fatally so
a deploy run issues no HTTP call either. -/
theorem c6_missing_config_fatal :
    (∀ excel envs, runMainUpd none excel envs = ⟨[], UpdOutcome.fatalConfig⟩) ∧
    (∀ lines excel envs,
      (dictGet (readVarsUpd lines) "baseUrl" = none ∨
       dictGet (readVarsUpd lines) "username" = none ∨
       dictGet (readVarsUpd lines) "password" = none) →
      runMainUpd (some lines) excel envs = ⟨[], UpdOutcome.fatalConfig⟩) ∧
    (readVarsDeploy none = none ∧
      ∀ doIt dryRun confirm vmName img net,
        runDeploy none doIt dryRun confirm vmName img net = ⟨[], none, 1⟩) ∧
    (∀ lines,
      (hasKey (parseVarsDeploy lines) "baseUrl" = false ∨
       hasKey (parseVarsDeploy lines) "username" = false ∨
       hasKey (parseVarsDeploy lines) "password" = false) →
      readVarsDeploy (some lines) = none ∧
      ∀ doIt dryRun confirm vmName img net,
        runDeploy (some lines) doIt dryRun confirm vmName img net = ⟨[], none, 1⟩) := by
  refine ⟨fun excel envs => rfl, ?_, ⟨rfl, ?_⟩, ?_⟩
  · intro lines excel envs h
    rcases h with h | h | h <;> simp [runMainUpd, mainStartUpd, h]
  · intro doIt dryRun confirm vmName img net
    cases doIt <;> simp [runDeploy, readVarsDeploy, ALLOW_EXECUTION_WITHOUT_DOIT]
  · intro lines h
    have hr : readVarsDeploy (some lines) = none := by
      rcases h with h | h | h <;> simp [readVarsDeploy, h]
    refine ⟨hr, ?_⟩
    intro doIt dryRun confirm vmName img net
    cases doIt <;> simp [runDeploy, hr, ALLOW_EXECUTION_WITHOUT_DOIT]

/-- C6 witness: a vars file lacking baseUrl makes the update script run
end in the fatal configuration outcome with zero HTTP calls. -/
theorem c6_witness :
    runMainUpd (some ["username=u", "password=p"]) none [] = ⟨[], UpdOutcome.fatalConfig⟩ :=
  c6_missing_config_fatal.2.1 ["username=u", "password=p"] none [] (Or.inl (by decide))

/-- C1: for every record that reaches the conditional write, a POST
response with status 202 marks the record ACCEPTED and captures the
response's updated ETag; any other status marks it FAILED with that
literal status code; a transport failure with no response marks it
FAILED (N/A).  No status other than 202, 2xx included, is a success. -/
theorem c1_write_outcome (baseUrl : String) (row : Row) (env : Env) (etag : String)
    (helig : pyUpper (pyStrip row.matchCell) = "OK")
    (hname : pyStrip row.vmNameCell ≠ "")
    (hext : pyStrip row.vmExtIdCell ≠ "")
    (hcats : pyStrip row.categoryCell ≠ "")
    (hparse : parseCategoryUuids (pyStrip row.categoryCell) ≠ [])
    (hget : env.getEtag = some etag) (hetag : etag ≠ "") :
    (∀ resp, env.postResp = some resp → resp.statusCode = 202 →
        (processRow baseUrl row env).written = some "ACCEPTED" ∧
        (processRow baseUrl row env).capturedEtag = some resp.etag) ∧
    (∀ resp, env.postResp = some resp → resp.statusCode ≠ 202 →
        (processRow baseUrl row env).written
            = some ("FAILED (" ++ toString resp.statusCode ++ ")") ∧
        (processRow baseUrl row env).capturedEtag = none) ∧
    (env.postResp = none →
        (processRow baseUrl row env).written = some "FAILED (N/A)" ∧
        (processRow baseUrl row env).capturedEtag = none) := by
  refine ⟨?_, ?_, ?_⟩
  · intro resp hpost h202
    simp [processRow, helig, hname, hext, hcats, hparse, hget, hetag, hpost, h202]
  · intro resp hpost h202
    simp [processRow, helig, hname, hext, hcats, hparse, hget, hetag, hpost, h202]
  · intro hpost
    simp [processRow, helig, hname, hext, hcats, hparse, hget, hetag, hpost]

/-- C1 witness: a 200 response, although 2xx, marks the record FAILED
with the literal code 200. -/
theorem c1_witness :
    (processRow "https://pc:9440/api" ⟨"OK", "vm1", "id1", "c1,c2"⟩
        ⟨some "W/abc", some ⟨200, ""⟩⟩).written
      = some ("FAILED (" ++ toString (200 : Nat) ++ ")") ∧
    (processRow "https://pc:9440/api" ⟨"OK", "vm1", "id1", "c1,c2"⟩
        ⟨some "W/abc", some ⟨200, ""⟩⟩).capturedEtag = none :=
  (c1_write_outcome "https://pc:9440/api" ⟨"OK", "vm1", "id1", "c1,c2"⟩
      ⟨some "W/abc", some ⟨200, ""⟩⟩ "W/abc" (by decide) (by decide) (by decide)
      (by decide) (by decide) rfl (by decide)).2.1 ⟨200, ""⟩ rfl (by decide)

/-- C2 (amended): for every eligible record whose read step yields no
version token (GET transport failure, or a response whose ETag header is
missing or empty), the record is skipped with no status written to its
row and no POST attempted, and processing of subsequent records
continues. -/
theorem c2_no_token_skips_record (baseUrl : String) (row : Row) (env : Env)
    (rest : List Row) (envs : List Env)
    (helig : pyUpper (pyStrip row.matchCell) = "OK")
    (hget : env.getEtag = none ∨ env.getEtag = some "") :
    hasPost (processRow baseUrl row env).calls = false ∧
    (processRow baseUrl row env).written = none ∧
    processTable baseUrl (row :: rest) (env :: envs)
      = processRow baseUrl row env :: processTable baseUrl rest envs := by
  rcases hget with h | h <;>
  by_cases h1 : pyStrip row.vmNameCell = "" <;>
  by_cases h2 : pyStrip row.vmExtIdCell = "" <;>
  by_cases h3 : pyStrip row.categoryCell = "" <;>
  by_cases h4 : parseCategoryUuids (pyStrip row.categoryCell) = [] <;>
  simp [processRow, processTable, hasPost, helig, h, h1, h2, h3, h4]

/-- C2 counterexample: an eligible record whose GET response carries an
empty ETag is skipped with nothing written to its row, so the claim that
such a record is marked FAILED is false; the read was attempted and no
POST followed. -/
theorem c2_counterexample :
    (processRow "https://pc:9440/api" ⟨"OK", "vm1", "id1", "c1"⟩
        ⟨some "", none⟩).written = none ∧
    (processRow "https://pc:9440/api" ⟨"OK", "vm1", "id1", "c1"⟩
        ⟨some "", none⟩).calls
      = [UCall.get "https://pc:9440/api/vmm/v4.1/ahv/config/vms/id1"] := by
  refine ⟨by decide, by decide⟩

/-- C2 witness: the amended behaviour at a concrete record whose GET
fails in transport. -/
theorem c2_witness :
    hasPost (processRow "b" ⟨"OK", "vm1", "id1", "c1"⟩ ⟨none, none⟩).calls = false ∧
    (processRow "b" ⟨"OK", "vm1", "id1", "c1"⟩ ⟨none, none⟩).written = none ∧
    processTable "b" [⟨"OK", "vm1", "id1", "c1"⟩, ⟨"OK", "vm2", "id2", "c2"⟩]
        [⟨none, none⟩, ⟨some "W/x", some ⟨202, ""⟩⟩]
      = processRow "b" ⟨"OK", "vm1", "id1", "c1"⟩ ⟨none, none⟩
          :: processTable "b" [⟨"OK", "vm2", "id2", "c2"⟩] [⟨some "W/x", some ⟨202, ""⟩⟩] :=
  c2_no_token_skips_record "b" ⟨"OK", "vm1", "id1", "c1"⟩ ⟨none, none⟩
    [⟨"OK", "vm2", "id2", "c2"⟩] [⟨some "W/x", some ⟨202, ""⟩⟩] (by decide) (Or.inl rfl)

/-- C3 (amended): for every record whose eligibility flag, stripped and
uppercased, differs from OK, the orchestrator issues no HTTP call and
writes nothing to the row. -/
theorem c3_ineligible_row_untouched (baseUrl : String) (row : Row) (env : Env)
    (h : pyUpper (pyStrip row.matchCell) ≠ "OK") :
    processRow baseUrl row env = ⟨[], none, none⟩ := by
  simp [processRow, h]

/-- C3 counterexample: the flag "ok" is not exactly the string OK, yet the
record is processed: HTTP calls are issued and ACCEPTED is written, so the
case-sensitive claim is false. -/
theorem c3_counterexample :
    (⟨"ok", "vm1", "id1", "c1"⟩ : Row).matchCell ≠ "OK" ∧
    (processRow "b" ⟨"ok", "vm1", "id1", "c1"⟩
        ⟨some "W/abc", some ⟨202, "W/def"⟩⟩).calls ≠ [] ∧
    (processRow "b" ⟨"ok", "vm1", "id1", "c1"⟩
        ⟨some "W/abc", some ⟨202, "W/def"⟩⟩).written = some "ACCEPTED" := by
  refine ⟨by decide, by decide, by decide⟩

/-- C3 witness: a record flagged SKIP is left untouched. -/
theorem c3_witness :
    processRow "b" ⟨"SKIP", "vm2", "id2", "c3"⟩ ⟨some "W/abc", some ⟨202, ""⟩⟩
      = ⟨[], none, none⟩ :=
  c3_ineligible_row_untouched "b" ⟨"SKIP", "vm2", "id2", "c3"⟩
    ⟨some "W/abc", some ⟨202, ""⟩⟩ (by decide)

/-- C4: for every eligible record whose comma-separated category list is
empty after trimming and discarding empty entries, no HTTP call is made,
nothing is written to the row, and in particular the record is never
marked ACCEPTED. -/
theorem c4_empty_category_list_skipped (baseUrl : String) (row : Row) (env : Env)
    (helig : pyUpper (pyStrip row.matchCell) = "OK")
    (hparse : parseCategoryUuids (pyStrip row.categoryCell) = []) :
    (processRow baseUrl row env).calls = [] ∧
    (processRow baseUrl row env).written = none ∧
    (processRow baseUrl row env).written ≠ some "ACCEPTED" := by
  by_cases h1 : pyStrip row.vmNameCell = "" <;>
  by_cases h2 : pyStrip row.vmExtIdCell = "" <;>
  by_cases h3 : pyStrip row.categoryCell = "" <;>
  simp [processRow, helig, hparse, h1, h2, h3]

/-- C4 witness: a category cell holding only commas and spaces is skipped
without any call even though the row is eligible and the remote would
answer 202. -/
theorem c4_witness :
    (processRow "b" ⟨"OK", "vm1", "id1", " , ,"⟩ ⟨some "W/abc", some ⟨202, ""⟩⟩).calls = [] ∧
    (processRow "b" ⟨"OK", "vm1", "id1", " , ,"⟩ ⟨some "W/abc", some ⟨202, ""⟩⟩).written = none ∧
    (processRow "b" ⟨"OK", "vm1", "id1", " , ,"⟩ ⟨some "W/abc", some ⟨202, ""⟩⟩).written
      ≠ some "ACCEPTED" :=
  c4_empty_category_list_skipped "b" ⟨"OK", "vm1", "id1", " , ,"⟩
    ⟨some "W/abc", some ⟨202, ""⟩⟩ (by decide) (by decide)

/-- C10: for every record flagged OK whose VM name, VM extId or category
cell is empty after trimming, no HTTP call is issued and nothing is
written to the row (silent skip, not FAILED), and subsequent records are
still processed. -/
theorem c10_missing_cell_skipped_silently (baseUrl : String) (row : Row) (env : Env)
    (rest : List Row) (envs : List Env)
    (helig : pyUpper (pyStrip row.matchCell) = "OK")
    (hempty : pyStrip row.vmNameCell = "" ∨ pyStrip row.vmExtIdCell = "" ∨
      pyStrip row.categoryCell = "") :
    processRow baseUrl row env = ⟨[], none, none⟩ ∧
    processTable baseUrl (row :: rest) (env :: envs)
      = processRow baseUrl row env :: processTable baseUrl rest envs := by
  refine ⟨?_, by simp [processTable]⟩
  simp [processRow, helig, hempty]

/-- C10 witness: an OK row with an empty VM-name cell is silently skipped
while the next row is still processed. -/
theorem c10_witness :
    processRow "b" ⟨"OK", "", "id1", "c1"⟩ ⟨some "W/abc", some ⟨202, ""⟩⟩
      = ⟨[], none, none⟩ ∧
    processTable "b" [⟨"OK", "", "id1", "c1"⟩, ⟨"OK", "vm2", "id2", "c2"⟩]
        [⟨some "W/abc", some ⟨202, ""⟩⟩, ⟨some "W/x", some ⟨202, ""⟩⟩]
      = processRow "b" ⟨"OK", "", "id1", "c1"⟩ ⟨some "W/abc", some ⟨202, ""⟩⟩
          :: processTable "b" [⟨"OK", "vm2", "id2", "c2"⟩] [⟨some "W/x", some ⟨202, ""⟩⟩] :=
  c10_missing_cell_skipped_silently "b" ⟨"OK", "", "id1", "c1"⟩
    ⟨some "W/abc", some ⟨202, ""⟩⟩ [⟨"OK", "vm2", "id2", "c2"⟩]
    [⟨some "W/x", some ⟨202, ""⟩⟩] (by decide) (Or.inl (by decide))

/-- C8: with identical image and network selections, a dry run builds
exactly the payload a non-dry run sends, and the dry run performs zero
POST calls. -/
theorem c8_dry_run_same_payload_no_post (file : Option (List String))
    (cfg : List (String × String)) (confirm : Bool) (vmName : String) (img net : InvEntry)
    (hcfg : readVarsDeploy file = some cfg) :
    sentPayloads (runDeploy file true true confirm vmName img net).calls = [] ∧
    (runDeploy file true true confirm vmName img net).builtPayload
      = some (create_vm_payload vmName img net) ∧
    sentPayloads (runDeploy file true false true vmName img net).calls
      = [create_vm_payload vmName img net] ∧
    (runDeploy file true false true vmName img net).builtPayload
      = (runDeploy file true true confirm vmName img net).builtPayload := by
  simp [runDeploy, hcfg, sentPayloads, ALLOW_EXECUTION_WITHOUT_DOIT]

/-- C8 witness: the dry-run and deploy payload agreement at a concrete
configuration, image and network. -/
theorem c8_witness :
    sentPayloads (runDeploy (some ["baseUrl=https://pc", "username=u", "password=p"])
        true true false "Windows-VM-1" ⟨"Windows2019", "img-1"⟩ ⟨"VLAN100", "net-1"⟩).calls
      = [] ∧
    (runDeploy (some ["baseUrl=https://pc", "username=u", "password=p"])
        true true false "Windows-VM-1" ⟨"Windows2019", "img-1"⟩ ⟨"VLAN100", "net-1"⟩).builtPayload
      = some (create_vm_payload "Windows-VM-1" ⟨"Windows2019", "img-1"⟩ ⟨"VLAN100", "net-1"⟩) ∧
    sentPayloads (runDeploy (some ["baseUrl=https://pc", "username=u", "password=p"])
        true false true "Windows-VM-1" ⟨"Windows2019", "img-1"⟩ ⟨"VLAN100", "net-1"⟩).calls
      = [create_vm_payload "Windows-VM-1" ⟨"Windows2019", "img-1"⟩ ⟨"VLAN100", "net-1"⟩] ∧
    (runDeploy (some ["baseUrl=https://pc", "username=u", "password=p"])
        true false true "Windows-VM-1" ⟨"Windows2019", "img-1"⟩ ⟨"VLAN100", "net-1"⟩).builtPayload
      = (runDeploy (some ["baseUrl=https://pc", "username=u", "password=p"])
        true true false "Windows-VM-1" ⟨"Windows2019", "img-1"⟩ ⟨"VLAN100", "net-1"⟩).builtPayload :=
  c8_dry_run_same_payload_no_post (some ["baseUrl=https://pc", "username=u", "password=p"])
    [("baseUrl", "https://pc"), ("username", "u"), ("password", "p")]
    false "Windows-VM-1" ⟨"Windows2019", "img-1"⟩ ⟨"VLAN100", "net-1"⟩ (by decide)

/-- C9: when the inventory holds an entry matching the requested name
exactly (uniquely so) and another entry matching only case-insensitively,
name selection returns the exact-match entry, for images and for subnets,
regardless of inventory order. -/
theorem c9_exact_match_precedence (images subnets : List InvEntry)
    (ti ts : String) (ei ci es cs : InvEntry)
    (hei : ei ∈ images) (hni : ei.name = ti)
    (hui : ∀ x, x ∈ images → x.name = ti → x = ei)
    (hci : ci ∈ images) (hcin : ci.name ≠ ti) (hcil : pyLower ci.name = pyLower ti)
    (hes : es ∈ subnets) (hns : es.name = ts)
    (hus : ∀ x, x ∈ subnets → x.name = ts → x = es)
    (hcs : cs ∈ subnets) (hcsn : cs.name ≠ ts) (hcsl : pyLower cs.name = pyLower ts) :
    find_image_by_name images ti = some ei ∧ find_network_by_name subnets ts = some es := by
  constructor
  · unfold find_image_by_name
    rw [find_exact_unique images ti ei hei hni hui]
  · unfold find_network_by_name
    rw [find_exact_unique subnets ts es hes hns hus]

/-- C9 witness: the exact match wins even when the case-insensitive
variant comes first in the inventory. -/
theorem c9_witness :
    find_image_by_name [⟨"windows", "img-a"⟩, ⟨"Windows", "img-b"⟩] "Windows"
      = some ⟨"Windows", "img-b"⟩ ∧
    find_network_by_name [⟨"NET1", "sub-a"⟩, ⟨"net1", "sub-b"⟩] "net1"
      = some ⟨"net1", "sub-b"⟩ :=
  c9_exact_match_precedence [⟨"windows", "img-a"⟩, ⟨"Windows", "img-b"⟩]
    [⟨"NET1", "sub-a"⟩, ⟨"net1", "sub-b"⟩] "Windows" "net1"
    ⟨"Windows", "img-b"⟩ ⟨"windows", "img-a"⟩ ⟨"net1", "sub-b"⟩ ⟨"NET1", "sub-a"⟩
    (by decide) (by decide) (by decide) (by decide) (by decide) (by decide)
    (by decide) (by decide) (by decide) (by decide) (by decide) (by decide)
